import Mathlib

/-!
Shallow embedding of the rust-tensorflow-serving client library
(src/src/lib.rs): the Payload / Feature encoding pipeline, the image
tensor builder inside predict_with_preprocessing, the validated
client-construction process of TensorflowServingBuilder, and the
request envelopes built by classify and predict_with_preprocessing.

Rust f32 values are modelled as rationals: the only operation the
library performs on them is the exact byte-to-float conversion
(p as f32 for a byte p) and the application of a caller-supplied
pointwise function, so no floating-point rounding is involved in any
statement below.  i64 is modelled as Int, u16 and u32 as Nat, bytes
as Nat.
-/

/-- Modelled from the spec: the message schema collaborator (section 6)
defines TensorShapeProto as an ordered list of dimensions; each
dimension carries a size and a name.  The generated protobuf code is
produced at build time and is not part of src/. -/
structure TensorShapeProto.Dim where
  size : Int
  name : String
  deriving DecidableEq

/-- Modelled from the spec: TensorShapeProto, ordered dims (section 6). -/
structure TensorShapeProto where
  dim : List TensorShapeProto.Dim
  deriving DecidableEq

/-- Modelled from the spec: the 32-bit-float element type tag of the
schema collaborator (DataType DT_FLOAT), whose wire value is 1; the
source writes the literal 1 into the dtype field. -/
def dtFloat : Nat := 1

/-- Modelled from the spec: TensorProto with an element type tag, shape
metadata and a flat float payload (section 6). -/
structure TensorProto where
  dtype : Nat
  tensor_shape : Option TensorShapeProto
  float_val : List Rat
  deriving DecidableEq

/-- Modelled from the spec: the byte-list attribute encoding (section 6). -/
structure BytesList where
  value : List (List Nat)
  deriving DecidableEq

/-- Modelled from the spec: the int64-list attribute encoding (section 6). -/
structure Int64List where
  value : List Int
  deriving DecidableEq

/-- Modelled from the spec: the float-list attribute encoding (section 6). -/
structure FloatList where
  value : List Rat
  deriving DecidableEq

/-- Modelled from the spec: the oneof carried by a Feature, one of the
three attribute-list encodings (section 6). -/
inductive Feature.Kind where
  | bytesList (v : BytesList)
  | int64List (v : Int64List)
  | floatList (v : FloatList)
  deriving DecidableEq

/-- Modelled from the spec: Feature, an optional oneof over the three
list kinds (section 6).  An absent kind is the protobuf default. -/
structure Feature where
  kind : Option Feature.Kind
  deriving DecidableEq

/-- Modelled from the spec: Features, a map from field name to Feature
(section 6).  The Rust side uses a HashMap, whose iteration order is
irrelevant per the spec (section 3); it is modelled as an association
list. -/
structure Features where
  feature : List (String × Feature)
  deriving DecidableEq

/-- Modelled from the spec: an Example wraps an optional Features
(section 6, request envelopes). -/
structure TfExample where
  features : Option Features
  deriving DecidableEq

/-- Modelled from the spec: an ExampleList is an ordered list of
examples (section 6, request envelopes). -/
structure ExampleList where
  examples : List TfExample
  deriving DecidableEq

/-- Modelled from the spec: the oneof carried by an Input; the source
only ever builds the example-list alternative. -/
inductive Input.Kind where
  | exampleList (l : ExampleList)
  deriving DecidableEq

/-- Modelled from the spec: Input, an optional oneof (section 6). -/
structure Input where
  kind : Option Input.Kind
  deriving DecidableEq

/-- Modelled from the spec: the version choice oneof of a ModelSpec;
the source only ever builds the explicit numeric version alternative. -/
inductive ModelSpec.VersionChoice where
  | version (v : Int)
  deriving DecidableEq

/-- Modelled from the spec: ModelSpec with name, version choice and
signature name (section 6). -/
structure ModelSpec where
  name : String
  version_choice : Option ModelSpec.VersionChoice
  signature_name : String
  deriving DecidableEq

/-- Modelled from the spec: the classification request envelope with a
model spec and an input (section 6). -/
structure ClassificationRequest where
  model_spec : Option ModelSpec
  input : Option Input
  deriving DecidableEq

/-- Modelled from the spec: the prediction request envelope with a
model spec and a map from input name to tensor (section 6); the map is
modelled as an association list. -/
structure PredictRequest where
  model_spec : Option ModelSpec
  inputs : List (String × TensorProto)
  deriving DecidableEq

/-- Modelled from the spec: the RPC transport collaborator exposes
connect(address) yielding an opaque channel handle (section 6); the
handle is recorded by the address it was opened on. -/
structure PredictionServiceClient where
  address : String
  deriving DecidableEq

/-- Modelled from the spec: the image decode collaborator returns a
decoded bitmap exposing width, height and a row-major pixel byte
sequence (section 6).  The image crate backing the source stores the
bitmap in its native color type, so the byte sequence interleaves
`channels` samples per pixel (1 for grayscale, 2 for gray+alpha, 3 for
RGB, 4 for RGBA) and raw_pixels returns that native buffer unchanged;
well-formedness of a decoded image is `rawPixelsWF` below. -/
structure DynamicImage where
  width : Nat
  height : Nat
  channels : Nat
  raw_pixels : List Nat
  deriving DecidableEq

/-- A decoded bitmap is well formed when its raw buffer holds exactly
`channels` bytes per pixel and the channel count is one of the native
color types of the decode collaborator. -/
def rawPixelsWF (img : DynamicImage) : Prop :=
  img.raw_pixels.length = img.width * img.height * img.channels ∧
    img.channels ∈ ([1, 2, 3, 4] : List Nat)

instance (img : DynamicImage) : Decidable (rawPixelsWF img) := by
  unfold rawPixelsWF
  infer_instance

/-- The `dimensions` accessor of the decoded image: (width, height). -/
def DynamicImage.dimensions (img : DynamicImage) : Nat × Nat :=
  (img.width, img.height)

/-- `impl Image for DynamicImage` (src/src/lib.rs lines 26-30): an
already decoded image converts to an image by cloning, always
succeeding. -/
def DynamicImage.to_image (img : DynamicImage) : Except String DynamicImage :=
  .ok img

/-- The Payload enum (src/src/lib.rs lines 509-516): bytes, ints or
floats. -/
inductive Payload where
  | bytes (v : List (List Nat))
  | ints (v : List Int)
  | floats (v : List Rat)
  deriving DecidableEq

/-- `impl From<Payload> for Feature` (src/src/lib.rs lines 536-570):
each Payload variant becomes a Feature whose kind is the matching
attribute list carrying the same elements. -/
def Feature.fromPayload (c : Payload) : Feature :=
  let data_list : Feature.Kind :=
    match c with
    | .bytes v => .bytesList { value := v }
    | .ints v => .int64List { value := v }
    | .floats v => .floatList { value := v }
  { kind := some data_list }

/-- `MapToFeatures::to_features` (src/src/lib.rs lines 576-605): maps
every (name, payload) entry of the feature map to (name, feature),
setting the feature kind by matching on the payload variant. -/
def to_features (m : List (String × Payload)) : Features :=
  let i := m.map (fun kv =>
    let feature : Feature :=
      match kv.2 with
      | .bytes v => { kind := some (.bytesList { value := v }) }
      | .ints v => { kind := some (.int64List { value := v }) }
      | .floats v => { kind := some (.floatList { value := v }) }
    (kv.1, feature))
  { feature := i }

/-- The builder struct (src/src/lib.rs lines 74-79): hostname, port and
signature name, all optional; `derive(Default)` gives all-none. -/
structure TensorflowServingBuilder where
  hostname : Option String
  port : Option Nat
  signature_name : Option String
  deriving DecidableEq

/-- `TensorflowServingBuilder::default()`: every field unset. -/
def TensorflowServingBuilder.mkDefault : TensorflowServingBuilder :=
  { hostname := none, port := none, signature_name := none }

/-- The hostname setter (src/src/lib.rs lines 84-87). -/
def TensorflowServingBuilder.set_hostname (self : TensorflowServingBuilder)
    (hostname : String) : TensorflowServingBuilder :=
  { self with hostname := some hostname }

/-- The port setter (src/src/lib.rs lines 91-94). -/
def TensorflowServingBuilder.set_port (self : TensorflowServingBuilder)
    (port : Nat) : TensorflowServingBuilder :=
  { self with port := some port }

/-- The signature name setter (src/src/lib.rs lines 98-101). -/
def TensorflowServingBuilder.set_signature_name (self : TensorflowServingBuilder)
    (signature_name : String) : TensorflowServingBuilder :=
  { self with signature_name := some signature_name }

/-- The client struct (src/src/lib.rs lines 137-140): connection handle
plus resolved signature name. -/
structure TensorflowServing where
  client : PredictionServiceClient
  signature_name : String
  deriving DecidableEq

/-- `TensorflowServingBuilder::build` (src/src/lib.rs lines 105-131).
The transport collaborator is passed in as the `connect` function
(section 6 of the spec); the third component of the result records the
addresses `connect` was invoked on, the test transport double of the
spec (section 8).  The method takes `&mut self`, so the builder state
after the call is returned as the second component: the two validation
checks return early leaving the state untouched; past validation the
source `take()`s signature_name and hostname (setting them to none)
but only copies port. -/
def TensorflowServingBuilder.build
    (connect : String → Except String PredictionServiceClient)
    (self : TensorflowServingBuilder) :
    Except String TensorflowServing × TensorflowServingBuilder × List String :=
  match self.hostname with
  | none => (.error "hostname not provided", self, [])
  | some hostname =>
    match self.port with
    | none => (.error "port not provided", self, [])
    | some port =>
      let signature_name := self.signature_name.getD "serving_default"
      let self := { self with signature_name := none, hostname := none }
      let addr := "http://" ++ hostname ++ ":" ++ toString port
      match connect addr with
      | .error e => (.error e, self, [addr])
      | .ok client => (.ok { client := client, signature_name := signature_name }, self, [addr])

/-- ModelDescription (src/src/lib.rs lines 483-492), instantiated at
S = String: model name plus optional version. -/
structure ModelDescription where
  name : String
  version : Option Int
  deriving DecidableEq

/-- `impl From<S> for ModelDescription<S>` (src/src/lib.rs lines
494-504): a bare name string becomes a description with no version. -/
def ModelDescription.fromString (s : String) : ModelDescription :=
  { name := s, version := none }

/-- `build_model_spec` (src/src/lib.rs lines 399-416): the optional
version maps into the version choice, the name is carried over, and
the signature name is the one resolved at build time. -/
def TensorflowServing.build_model_spec (self : TensorflowServing)
    (model_description : ModelDescription) : ModelSpec :=
  let desc := model_description
  let version := desc.version.map (fun version_id => ModelSpec.VersionChoice.version version_id)
  { name := desc.name, version_choice := version, signature_name := self.signature_name }

/-- `build_input` (src/src/lib.rs lines 372-397): encode the payload
map into Features, wrap it in one Example, wrap that in an ExampleList,
and wrap that in an Input. -/
def TensorflowServing.build_input (self : TensorflowServing)
    (payload_map : List (String × Payload)) : Input :=
  let ft := to_features payload_map
  let ex : TfExample := { features := some ft }
  let example_list : ExampleList := { examples := [ex] }
  let input : Input := { kind := some (.exampleList example_list) }
  input

/-- The request construction inside `classify` (src/src/lib.rs lines
162-166): a ClassificationRequest from the model spec and the wrapped
input.  The source then dispatches this request over the transport and
the response-decoding tail is unimplemented, so the constructed
request is the observable behaviour modelled here. -/
def TensorflowServing.classify (self : TensorflowServing)
    (model_name : ModelDescription) (payload_map : List (String × Payload)) :
    ClassificationRequest :=
  { model_spec := some (self.build_model_spec model_name),
    input := some (self.build_input payload_map) }

/-- The request construction inside `predict_with_preprocessing`
(src/src/lib.rs lines 200-238): resolve the image (identity for an
already decoded image), build the dims list [1, width, height, 3],
map every raw pixel byte to a float and through the preprocessing
function, and assemble the TensorProto (dtype 1) keyed under "input".
The source then dispatches the request and the response tail is
unimplemented, so the constructed request is the observable behaviour
modelled here. -/
def TensorflowServing.predict_with_preprocessing (self : TensorflowServing)
    (img : DynamicImage) (model_description : ModelDescription)
    (preprocessing_fn : Rat → Rat) : Except String PredictRequest := do
  let img ← img.to_image
  let dims := ([1, (img.width : Int), (img.height : Int), 3]).map
    (fun d => ({ size := d, name := "" } : TensorShapeProto.Dim))
  let pixels := (img.raw_pixels.map (fun p => (p : Rat))).map preprocessing_fn
  let tensor_shape : TensorShapeProto := { dim := dims }
  let tensor : TensorProto :=
    { dtype := 1, tensor_shape := some tensor_shape, float_val := pixels }
  let inputs : List (String × TensorProto) := [("input", tensor)]
  let request : PredictRequest :=
    { model_spec := some (self.build_model_spec model_description), inputs := inputs }
  return request

/-- A transport double that accepts every address, recording it in the
returned handle (spec section 8 uses such doubles to observe connect
calls). -/
def connectOk : String → Except String PredictionServiceClient :=
  fun addr => .ok { address := addr }

/-- A transport double that refuses every connection attempt. -/
def connectRefused : String → Except String PredictionServiceClient :=
  fun _ => .error "connection refused"

/-- A concrete client handle used to evaluate request construction on
closed inputs. -/
def demoClient : TensorflowServing :=
  { client := { address := "http://localhost:8500" },
    signature_name := "serving_default" }

/-- A well-formed 1 by 1 decoded image in a four-channel (RGBA) color
type: three color bytes 10, 20, 30 and an alpha byte 40. -/
def rgbaOnePixel : DynamicImage :=
  { width := 1, height := 1, channels := 4, raw_pixels := [10, 20, 30, 40] }

/-- A well-formed 2 by 2 decoded RGB image with twelve raw bytes. -/
def rgbTwoByTwo : DynamicImage :=
  { width := 2, height := 2, channels := 3,
    raw_pixels := [0, 1, 2, 3, 4, 5, 6, 7, 8, 9, 10, 11] }

theorem build_err_hostname (connect : String → Except String PredictionServiceClient)
    (b : TensorflowServingBuilder) (h : b.hostname = none) :
    TensorflowServingBuilder.build connect b = (.error "hostname not provided", b, []) := by
  unfold TensorflowServingBuilder.build
  rw [h]

theorem build_err_port (connect : String → Except String PredictionServiceClient)
    (b : TensorflowServingBuilder) (hst : String)
    (hh : b.hostname = some hst) (hp : b.port = none) :
    TensorflowServingBuilder.build connect b = (.error "port not provided", b, []) := by
  unfold TensorflowServingBuilder.build
  rw [hh, hp]

theorem build_validated (connect : String → Except String PredictionServiceClient)
    (b : TensorflowServingBuilder) (hst : String) (p : Nat)
    (hh : b.hostname = some hst) (hp : b.port = some p) :
    TensorflowServingBuilder.build connect b =
      ((match connect ("http://" ++ hst ++ ":" ++ toString p) with
        | .error e => .error e
        | .ok client =>
          .ok { client := client,
                signature_name := b.signature_name.getD "serving_default" }),
       { hostname := none, port := some p, signature_name := none },
       ["http://" ++ hst ++ ":" ++ toString p]) := by
  obtain ⟨bh, bp, bs⟩ := b
  dsimp only at hh hp ⊢
  subst hh
  subst hp
  unfold TensorflowServingBuilder.build
  cases hc : connect ("http://" ++ hst ++ ":" ++ toString p) <;> simp [hc]

theorem build_ok (connect : String → Except String PredictionServiceClient)
    (b : TensorflowServingBuilder) (hst : String) (p : Nat)
    (cl : PredictionServiceClient)
    (hh : b.hostname = some hst) (hp : b.port = some p)
    (hc : connect ("http://" ++ hst ++ ":" ++ toString p) = .ok cl) :
    TensorflowServingBuilder.build connect b =
      (.ok { client := cl, signature_name := b.signature_name.getD "serving_default" },
       { hostname := none, port := some p, signature_name := none },
       ["http://" ++ hst ++ ":" ++ toString p]) := by
  rw [build_validated connect b hst p hh hp, hc]

theorem build_trace (connect : String → Except String PredictionServiceClient)
    (b : TensorflowServingBuilder) (hst : String) (p : Nat)
    (hh : b.hostname = some hst) (hp : b.port = some p) :
    (TensorflowServingBuilder.build connect b).2.2 =
      ["http://" ++ hst ++ ":" ++ toString p] := by
  rw [build_validated connect b hst p hh hp]

theorem to_features_eq_map (m : List (String × Payload)) :
    (to_features m).feature = m.map (fun kv => (kv.1, Feature.fromPayload kv.2)) := by
  unfold to_features
  have h : (fun (kv : String × Payload) =>
      let feature : Feature :=
        match kv.2 with
        | .bytes v => { kind := some (.bytesList { value := v }) }
        | .ints v => { kind := some (.int64List { value := v }) }
        | .floats v => { kind := some (.floatList { value := v }) }
      (kv.1, feature)) =
      (fun (kv : String × Payload) => (kv.1, Feature.fromPayload kv.2)) := by
    funext kv
    rcases kv with ⟨k, p⟩
    cases p <;> rfl
  rw [h]

/-- Claim C1 (against the code as written): at a 1 by 1 four-channel
(RGBA) decoded image with raw bytes [10, 20, 30, 40] and the identity
preprocessing function, predict_with_preprocessing maps every raw
pixel byte into the float payload, producing the four entries
[10, 20, 30, 40] — the alpha byte 40 is kept, the payload length is 4,
and yet width * height * 3 = 3, so the payload disagrees with the
element count of the [1, W, H, 3] shape the same code declares. -/
theorem c1_alpha_byte_not_discarded :
    ∃ t : TensorProto,
      demoClient.predict_with_preprocessing rgbaOnePixel
          (ModelDescription.fromString "model") (fun p => p) =
        .ok { model_spec :=
                some (demoClient.build_model_spec (ModelDescription.fromString "model")),
              inputs := [("input", t)] } ∧
      t.float_val = [10, 20, 30, 40] ∧
      t.float_val.length = 4 ∧
      rgbaOnePixel.width * rgbaOnePixel.height * 3 = 3 ∧
      rawPixelsWF rgbaOnePixel := by
  refine ⟨_, rfl, by decide, by decide, by decide, by decide⟩

/-- Claim C2: for every decoded image, model description and
preprocessing function, the tensor built by predict_with_preprocessing
carries the 32-bit-float element type tag (dtype 1) and shape
dimensions exactly [1, width, height, 3] in that order, batch first
and width before height. -/
theorem c2_predict_tensor_shape_and_dtype (self : TensorflowServing)
    (img : DynamicImage) (desc : ModelDescription) (f : Rat → Rat) :
    ∃ t : TensorProto,
      self.predict_with_preprocessing img desc f =
        .ok { model_spec := some (self.build_model_spec desc),
              inputs := [("input", t)] } ∧
      t.dtype = dtFloat ∧
      t.tensor_shape = some { dim :=
        [{ size := 1, name := "" },
         { size := (img.width : Int), name := "" },
         { size := (img.height : Int), name := "" },
         { size := 3, name := "" }] } := by
  refine ⟨_, rfl, rfl, rfl⟩

/-- Claim C3: encoding a feature map into Features maps each entry to a
feature whose kind is the attribute list matching the payload variant
(bytes to byte-list, ints to int64-list, floats to float-list),
carrying the very same element list (so order and count are
preserved); an empty payload list encodes to an empty attribute list
under `some`, never to an absent kind; and the encoding is a total
function that agrees entrywise with the From conversion of Payload
into Feature. -/
theorem c3_to_features_encoding (m : List (String × Payload)) :
    (to_features m).feature = m.map (fun kv => (kv.1, Feature.fromPayload kv.2)) ∧
    (∀ v, (Feature.fromPayload (Payload.bytes v)).kind =
      some (.bytesList { value := v })) ∧
    (∀ v, (Feature.fromPayload (Payload.ints v)).kind =
      some (.int64List { value := v })) ∧
    (∀ v, (Feature.fromPayload (Payload.floats v)).kind =
      some (.floatList { value := v })) ∧
    (∀ p, ∃ k, (Feature.fromPayload p).kind = some k) := by
  refine ⟨to_features_eq_map m, fun v => rfl, fun v => rfl, fun v => rfl, fun p => ?_⟩
  cases p <;> exact ⟨_, rfl⟩

/-- Claim C4: build() on a builder with no hostname fails with the
error message "hostname not provided"; with hostname set but no port
it fails with "port not provided" — for every transport. -/
theorem c4_build_missing_field_messages :
    (∀ (connect : String → Except String PredictionServiceClient)
       (b : TensorflowServingBuilder), b.hostname = none →
       (TensorflowServingBuilder.build connect b).1 = .error "hostname not provided") ∧
    (∀ (connect : String → Except String PredictionServiceClient)
       (b : TensorflowServingBuilder) (hst : String),
       b.hostname = some hst → b.port = none →
       (TensorflowServingBuilder.build connect b).1 = .error "port not provided") := by
  constructor
  · intro connect b h
    rw [build_err_hostname connect b h]
  · intro connect b hst hh hp
    rw [build_err_port connect b hst hh hp]

/-- Witness for C4: the two failures evaluated on concrete builders. -/
theorem c4_build_missing_field_messages_witness :
    (TensorflowServingBuilder.build connectOk
        { hostname := none, port := some 8500, signature_name := none }).1 =
      .error "hostname not provided" ∧
    (TensorflowServingBuilder.build connectOk
        { hostname := some "localhost", port := none, signature_name := none }).1 =
      .error "port not provided" :=
  ⟨c4_build_missing_field_messages.1 connectOk _ rfl,
   c4_build_missing_field_messages.2 connectOk _ "localhost" rfl rfl⟩

/-- Claim C5: whenever a required field (hostname or port) is unset,
build() returns one of the two configuration errors and the transport
connect function is never invoked: the recorded list of connect calls
is empty. -/
theorem c5_config_error_no_connect
    (connect : String → Except String PredictionServiceClient)
    (b : TensorflowServingBuilder)
    (h : b.hostname = none ∨ b.port = none) :
    ((TensorflowServingBuilder.build connect b).1 = .error "hostname not provided" ∨
     (TensorflowServingBuilder.build connect b).1 = .error "port not provided") ∧
    (TensorflowServingBuilder.build connect b).2.2 = [] := by
  rcases h with h | h
  · rw [build_err_hostname connect b h]
    exact ⟨Or.inl rfl, rfl⟩
  · cases hh : b.hostname with
    | none =>
      rw [build_err_hostname connect b hh]
      exact ⟨Or.inl rfl, rfl⟩
    | some hst =>
      rw [build_err_port connect b hst hh h]
      exact ⟨Or.inr rfl, rfl⟩

/-- Witness for C5: the default builder makes zero connect calls. -/
theorem c5_config_error_no_connect_witness :
    ((TensorflowServingBuilder.build connectOk TensorflowServingBuilder.mkDefault).1 =
        .error "hostname not provided" ∨
     (TensorflowServingBuilder.build connectOk TensorflowServingBuilder.mkDefault).1 =
        .error "port not provided") ∧
    (TensorflowServingBuilder.build connectOk TensorflowServingBuilder.mkDefault).2.2 = [] :=
  c5_config_error_no_connect connectOk TensorflowServingBuilder.mkDefault (Or.inl rfl)

/-- Claim C6: on a successful build (hostname and port set, transport
connect succeeding) the resolved signature name is the literal
"serving_default" when none was set, and exactly the custom string
when one was set — and in the custom case every ModelSpec the client
builds afterwards carries that exact string. -/
theorem c6_signature_name_resolution
    (connect : String → Except String PredictionServiceClient)
    (b : TensorflowServingBuilder) (hst : String) (p : Nat)
    (cl : PredictionServiceClient)
    (hh : b.hostname = some hst) (hp : b.port = some p)
    (hc : connect ("http://" ++ hst ++ ":" ++ toString p) = .ok cl) :
    (b.signature_name = none →
      (TensorflowServingBuilder.build connect b).1 =
        .ok { client := cl, signature_name := "serving_default" }) ∧
    (∀ s, b.signature_name = some s →
      ∃ c, (TensorflowServingBuilder.build connect b).1 = .ok c ∧
        c.signature_name = s ∧
        ∀ desc, (c.build_model_spec desc).signature_name = s) := by
  rw [build_ok connect b hst p cl hh hp hc]
  constructor
  · intro hs
    rw [hs]
    rfl
  · intro s hs
    rw [hs]
    exact ⟨_, rfl, rfl, fun desc => rfl⟩

/-- Witness for C6: building with no signature name resolves to
"serving_default"; building with the custom name "custom" yields a
client whose every ModelSpec carries "custom". -/
theorem c6_signature_name_resolution_witness :
    ((TensorflowServingBuilder.build connectOk
        { hostname := some "localhost", port := some 8500, signature_name := none }).1 =
      .ok { client := { address := "http://localhost:8500" },
            signature_name := "serving_default" }) ∧
    ∃ c, (TensorflowServingBuilder.build connectOk
        { hostname := some "localhost", port := some 8500,
          signature_name := some "custom" }).1 = .ok c ∧
      c.signature_name = "custom" ∧
      ∀ desc, (c.build_model_spec desc).signature_name = "custom" :=
  ⟨(c6_signature_name_resolution connectOk _ "localhost" 8500
      { address := "http://localhost:8500" } rfl rfl rfl).1 rfl,
   (c6_signature_name_resolution connectOk _ "localhost" 8500
      { address := "http://localhost:8500" } rfl rfl rfl).2 "custom" rfl⟩

/-- Claim C7: for every classify call, the input of the built request
wraps the encoded Features in exactly one Example inside an
ExampleList envelope — the batched-example wrapping is present even
for a single input. -/
theorem c7_classify_single_example_envelope (self : TensorflowServing)
    (desc : ModelDescription) (m : List (String × Payload)) :
    (self.classify desc m).input =
      some { kind := some (.exampleList
        { examples := [{ features := some (to_features m) }] }) } := rfl

/-- Claim C8: converting a bare model-name string yields a
ModelDescription with that name and no version; building a ModelSpec
from a description with an explicit version preserves that version in
the version choice, and from a bare-string description leaves the
version choice absent. -/
theorem c8_model_description_conversion (s : String) (self : TensorflowServing)
    (name : String) (v : Int) :
    ModelDescription.fromString s = { name := s, version := none } ∧
    (self.build_model_spec { name := name, version := some v }).version_choice =
      some (.version v) ∧
    (self.build_model_spec (ModelDescription.fromString s)).version_choice = none :=
  ⟨rfl, rfl, rfl⟩

/-- Claim C9: a successful build takes the hostname and signature name
out of the builder but leaves the port set, so a second build on the
resulting builder state fails with "hostname not provided". -/
theorem c9_second_build_fails
    (connect : String → Except String PredictionServiceClient)
    (b : TensorflowServingBuilder) (hst : String) (p : Nat)
    (cl : PredictionServiceClient)
    (hh : b.hostname = some hst) (hp : b.port = some p)
    (hc : connect ("http://" ++ hst ++ ":" ++ toString p) = .ok cl) :
    (∃ c, (TensorflowServingBuilder.build connect b).1 = .ok c) ∧
    (TensorflowServingBuilder.build connect b).2.1 =
      { hostname := none, port := some p, signature_name := none } ∧
    (TensorflowServingBuilder.build connect
      (TensorflowServingBuilder.build connect b).2.1).1 =
      .error "hostname not provided" := by
  rw [build_ok connect b hst p cl hh hp hc]
  refine ⟨⟨_, rfl⟩, rfl, ?_⟩
  rw [build_err_hostname connect _ rfl]

/-- Witness for C9: a concrete successful build followed by a failing
second build on the same builder state. -/
theorem c9_second_build_fails_witness :
    (∃ c, (TensorflowServingBuilder.build connectOk
        { hostname := some "localhost", port := some 8500,
          signature_name := some "sig" }).1 = .ok c) ∧
    (TensorflowServingBuilder.build connectOk
        { hostname := some "localhost", port := some 8500,
          signature_name := some "sig" }).2.1 =
      { hostname := none, port := some 8500, signature_name := none } ∧
    (TensorflowServingBuilder.build connectOk
      (TensorflowServingBuilder.build connectOk
        { hostname := some "localhost", port := some 8500,
          signature_name := some "sig" }).2.1).1 =
      .error "hostname not provided" :=
  c9_second_build_fails connectOk _ "localhost" 8500
    { address := "http://localhost:8500" } rfl rfl rfl

/-- Claim C10: a build that fails on a missing hostname or missing port
returns the builder state entirely unchanged (and makes no connect
call), and setting the missing field afterwards lets the next build
proceed past validation: it reaches the transport, recording exactly
one connect call on the assembled address. -/
theorem c10_failed_build_keeps_fields :
    (∀ (connect : String → Except String PredictionServiceClient)
       (b : TensorflowServingBuilder), b.hostname = none →
       TensorflowServingBuilder.build connect b =
         (.error "hostname not provided", b, [])) ∧
    (∀ (connect : String → Except String PredictionServiceClient)
       (b : TensorflowServingBuilder) (hst : String),
       b.hostname = some hst → b.port = none →
       TensorflowServingBuilder.build connect b =
         (.error "port not provided", b, [])) ∧
    (∀ (connect : String → Except String PredictionServiceClient)
       (b : TensorflowServingBuilder) (hst : String) (p : Nat), b.port = some p →
       (TensorflowServingBuilder.build connect (b.set_hostname hst)).2.2 =
         ["http://" ++ hst ++ ":" ++ toString p]) ∧
    (∀ (connect : String → Except String PredictionServiceClient)
       (b : TensorflowServingBuilder) (hst : String) (p : Nat),
       b.hostname = some hst →
       (TensorflowServingBuilder.build connect (b.set_port p)).2.2 =
         ["http://" ++ hst ++ ":" ++ toString p]) := by
  refine ⟨fun connect b h => build_err_hostname connect b h,
    fun connect b hst hh hp => build_err_port connect b hst hh hp,
    fun connect b hst p hp => ?_, fun connect b hst p hh => ?_⟩
  · exact build_trace connect _ hst p rfl hp
  · exact build_trace connect _ hst p hh rfl

/-- Witness for C10: concrete failing builds that leave the builder
unchanged, and the repaired builders reaching the transport. -/
theorem c10_failed_build_keeps_fields_witness :
    (TensorflowServingBuilder.build connectOk
        { hostname := none, port := some 8500, signature_name := some "sig" } =
      (.error "hostname not provided",
       { hostname := none, port := some 8500, signature_name := some "sig" }, [])) ∧
    (TensorflowServingBuilder.build connectOk
        { hostname := some "localhost", port := none, signature_name := none } =
      (.error "port not provided",
       { hostname := some "localhost", port := none, signature_name := none }, [])) ∧
    ((TensorflowServingBuilder.build connectOk
        (TensorflowServingBuilder.set_hostname
          { hostname := none, port := some 8500, signature_name := some "sig" }
          "localhost")).2.2 = ["http://localhost:8500"]) ∧
    ((TensorflowServingBuilder.build connectOk
        (TensorflowServingBuilder.set_port
          { hostname := some "localhost", port := none, signature_name := none }
          8500)).2.2 = ["http://localhost:8500"]) :=
  ⟨c10_failed_build_keeps_fields.1 connectOk _ rfl,
   c10_failed_build_keeps_fields.2.1 connectOk _ "localhost" rfl rfl,
   c10_failed_build_keeps_fields.2.2.1 connectOk _ "localhost" 8500 rfl,
   c10_failed_build_keeps_fields.2.2.2 connectOk _ "localhost" 8500 rfl⟩
